import Mathlib

/-!
Shallow embedding of the ADGM corporate-agent demo (`app.py`): the filename
classifier `simulate_llm_analysis`, the incorporation checklist reconciler,
and the batch operation `analyze_documents`.  Python strings are modelled by
`String`, Python's case-insensitive substring tests by `strIn`/`pyLower` over
`List Char`, the docx documents by lists of paragraph strings, and the
filesystem writes by an ordered write log.
-/

/-- ASCII lower-casing of a character list, modelling Python `str.lower()`
on the ASCII file names and checklist keys the program handles. -/
def pyLower (s : List Char) : List Char := s.map Char.toLower

/-- Whether `needle` is a prefix of `hay` (character-by-character). -/
def isPre : List Char → List Char → Bool
  | [], _ => true
  | _ :: _, [] => false
  | a :: as, b :: bs => a == b && isPre as bs

/-- Whether `needle` occurs as a contiguous substring of `hay`: Python's
`needle in hay` on strings. -/
def strIn (needle : List Char) : List Char → Bool
  | [] => isPre needle []
  | b :: t => isPre needle (b :: t) || strIn needle t

/-- Python's `keyword in hay` for a string-literal keyword. -/
def pyIn (needle : String) (hay : List Char) : Bool := strIn needle.toList hay

/-- Whitespace as Python `str.strip()` removes it (the characters that occur
in this program's data are plain spaces). -/
def pyIsSpace (c : Char) : Bool :=
  c == ' ' || c == '\t' || c == '\n' || c == '\r' || c == '\x0b' || c == '\x0c'

/-- Python `str.strip()`: drop whitespace from both ends. -/
def pyStrip (s : List Char) : List Char :=
  ((s.dropWhile pyIsSpace).reverse.dropWhile pyIsSpace).reverse

/-- One simulated review issue, as built by `simulate_llm_analysis`. -/
structure Issue where
  «section» : String
  issue : String
  severity : String
  suggestion : String
  deriving Repr, DecidableEq

/-- The analysis dict returned by `simulate_llm_analysis`:
`{"doc_type": ..., "issues": [...]}`. -/
structure Analysis where
  doc_type : String
  issues : List Issue
  deriving Repr, DecidableEq

/-- The filename classifier `simulate_llm_analysis(doc_name)` of `app.py`:
starts from `{"doc_type": "Unknown", "issues": []}`, lower-cases the name and
branches on case-insensitive substring tests in the source's order. -/
def simulate_llm_analysis (doc_name : String) : Analysis :=
  let analysis : Analysis := { doc_type := "Unknown", issues := [] }
  let lower_doc_name := pyLower doc_name.toList
  if pyIn "articles" lower_doc_name || pyIn "aoa" lower_doc_name then
    { analysis with
      doc_type := "Articles of Association",
      issues := analysis.issues ++ [{
        «section» := "Jurisdiction Clause (Simulated)",
        issue := "Jurisdiction clause does not explicitly specify 'ADGM Courts'.",
        severity := "High",
        suggestion := "Update the jurisdiction clause to 'ADGM Courts' to comply with ADGM regulations." }] }
  else if pyIn "board" lower_doc_name && pyIn "resolution" lower_doc_name then
    { analysis with
      doc_type := "Board Resolution",
      issues := analysis.issues ++ [{
        «section» := "Signatory Section (Simulated)",
        issue := "Missing date on the signatory page.",
        severity := "Medium",
        suggestion := "Ensure all signatory fields, including the date, are properly filled out." }] }
  else if pyIn "memo" lower_doc_name || pyIn "moa" lower_doc_name then
    { analysis with doc_type := "Memorandum of Association" }
  else if pyIn "ubo" lower_doc_name then
    { analysis with doc_type := "UBO Declaration Form" }
  else if pyIn "register" lower_doc_name then
    { analysis with doc_type := "Register of Members and Directors" }
  else
    { analysis with
      doc_type := "General Document",
      issues := analysis.issues ++ [{
        «section» := "General Compliance (Simulated)",
        issue := "Document format does not appear to match standard ADGM templates.",
        severity := "Low",
        suggestion := "Cross-reference with the official ADGM templates to ensure full compliance and formatting." }] }

/-- The `incorporation_checklist` dict of `analyze_documents`, in its
declaration (= iteration) order, every flag initially `False`. -/
def incorporation_checklist : List (String × Bool) :=
  [("Articles of Association (AoA)", false),
   ("Memorandum of Association (MoA/MoU)", false),
   ("Board Resolution Templates", false),
   ("Shareholder Resolution Templates", false),
   ("Incorporation Application Form", false),
   ("UBO Declaration Form", false),
   ("Register of Members and Directors", false)]

/-- `key.split('(')[0].strip().lower()` from the checklist loop. -/
def simplified_key (key : String) : List Char :=
  pyLower (pyStrip (key.toList.takeWhile (fun c => c != '(')))

/-- One pass of the checklist loop for one file: each category's flag is set
when its simplified key occurs in the lower-cased file name, and is kept
otherwise. -/
def updateChecklist (checklist : List (String × Bool)) (doc_name : String) :
    List (String × Bool) :=
  checklist.map fun p =>
    (p.1, p.2 || strIn (simplified_key p.1) (pyLower doc_name.toList))

/-- An uploaded file handle: its base name, and the paragraphs of its body
when `docx.Document` can open it (`none` models a parse failure, the
`except` branch of the source). -/
structure InputFile where
  name : String
  parsed : Option (List String)
  deriving Repr, DecidableEq

/-- The two placeholder paragraphs substituted when parsing fails. -/
def placeholderDoc (doc_name : String) : List String :=
  ["Original content of " ++ doc_name ++ " would be here.",
   "(Could not fully parse original, but analysis is proceeding based on filename)"]

/-- The document body the loop works on: the parsed paragraphs, or the
placeholder body on parse failure. -/
def baseDoc (f : InputFile) : List String :=
  match f.parsed with
  | some paragraphs => paragraphs
  | none => placeholderDoc f.name

/-- The three lines appended per issue: the quoted-style COMMENT line, the
SUGGESTION line, and a blank separator paragraph. -/
def commentLines (i : Issue) : List String :=
  ["COMMENT: In section '" ++ i.«section» ++ "', an issue was found: '" ++
     i.issue ++ "' (Severity: " ++ i.severity ++ ").",
   "SUGGESTION: " ++ i.suggestion,
   ""]

/-- The appended comments block: the marked heading followed by the three
lines of every issue in order. -/
def commentSection (issues : List Issue) : List String :=
  "--- AI Analysis & Comments ---" :: (issues.map commentLines).flatten

/-- An issue as merged into the aggregate report:
`{"document": doc_name, **issue}`. -/
structure TaggedIssue where
  document : String
  «section» : String
  issue : String
  severity : String
  suggestion : String
  deriving Repr, DecidableEq

/-- Tag one issue with its originating file name. -/
def tagIssue (doc_name : String) (i : Issue) : TaggedIssue :=
  { document := doc_name, «section» := i.«section», issue := i.issue,
    severity := i.severity, suggestion := i.suggestion }

/-- The tagged issues one file name contributes to `all_issues`. -/
def taggedIssues (doc_name : String) : List TaggedIssue :=
  (simulate_llm_analysis doc_name).issues.map (tagIssue doc_name)

/-- One `doc.save(...)` call: the target path and the saved paragraphs. -/
structure SavedDoc where
  path : String
  content : List String
  deriving Repr, DecidableEq

/-- The structured JSON report built at the end of the batch. -/
structure Report where
  process : String
  documents_uploaded : Nat
  required_documents : Nat
  missing_document : String
  issues_found : List TaggedIssue
  deriving Repr, DecidableEq

/-- The mutable state threaded through the per-file loop of
`analyze_documents`: the checklist dict, `all_issues`,
`reviewed_file_paths`, and the log of `doc.save` writes in order. -/
structure LoopState where
  checklist : List (String × Bool)
  all_issues : List TaggedIssue
  reviewed_file_paths : List String
  written : List SavedDoc
  deriving Repr, DecidableEq

/-- The `output_dir = "reviewed_docs"` constant. -/
def output_dir : String := "reviewed_docs"

/-- `os.path.join(output_dir, f"reviewed_{doc_name}")`. -/
def reviewedPath (doc_name : String) : String :=
  output_dir ++ "/reviewed_" ++ doc_name

/-- One iteration of the `for i, file in enumerate(files)` loop: open or
substitute the body, update the checklist, run the simulated analysis,
extend `all_issues` and append the comments block when issues exist, and
save the reviewed document. -/
def processFile (s : LoopState) (f : InputFile) : LoopState :=
  let doc_name := f.name
  let doc := baseDoc f
  let checklist := updateChecklist s.checklist doc_name
  let analysis_result := simulate_llm_analysis doc_name
  let hasIssues := !analysis_result.issues.isEmpty
  let all_issues :=
    if hasIssues then s.all_issues ++ analysis_result.issues.map (tagIssue doc_name)
    else s.all_issues
  let doc := if hasIssues then doc ++ commentSection analysis_result.issues else doc
  let reviewed_file_path := reviewedPath doc_name
  { checklist := checklist,
    all_issues := all_issues,
    reviewed_file_paths := s.reviewed_file_paths ++ [reviewed_file_path],
    written := s.written ++ [{ path := reviewed_file_path, content := doc }] }

/-- The loop's initial state. -/
def initState : LoopState :=
  { checklist := incorporation_checklist, all_issues := [],
    reviewed_file_paths := [], written := [] }

/-- What `analyze_documents` returns to the UI, together with the write log
of the reviewed files it saved. -/
structure RunResult where
  checklist_summary : String
  report : Report
  reviewed_file_paths : List String
  written : List SavedDoc
  deriving Repr, DecidableEq

/-- The batch operation `analyze_documents(files)`: raises
`gr.Error("Please upload at least one document.")` on an empty list
(modelled by `Except.error`), otherwise runs the per-file loop and builds
the summary string and the structured report. -/
def analyze_documents (files : List InputFile) : Except String RunResult :=
  if files.isEmpty then
    Except.error "Please upload at least one document."
  else
    let final := files.foldl processFile initState
    let missing_docs := (final.checklist.filter (fun p => !p.2)).map Prod.fst
    let base_summary :=
      "It appears you're trying to incorporate a company in ADGM. You have uploaded " ++
        toString files.length ++ " out of " ++
        toString incorporation_checklist.length ++ " required documents."
    let checklist_summary :=
      match missing_docs with
      | [] => base_summary ++ "\n\nAll required documents for incorporation appear to be present."
      | d :: _ => base_summary ++ "\n\nThe missing document appears to be: '" ++ d ++ "'."
    let report : Report :=
      { process := "Company Incorporation",
        documents_uploaded := files.length,
        required_documents := incorporation_checklist.length,
        missing_document := match missing_docs with | [] => "None" | d :: _ => d,
        issues_found := final.all_issues }
    Except.ok
      { checklist_summary := checklist_summary, report := report,
        reviewed_file_paths := final.reviewed_file_paths,
        written := final.written }

/-- The structured report of a run, when the run succeeded. -/
def reportOf : Except String RunResult → Option Report
  | Except.ok r => some r.report
  | Except.error _ => none

/-- The summary string of a run, when the run succeeded. -/
def summaryOf : Except String RunResult → Option String
  | Except.ok r => some r.checklist_summary
  | Except.error _ => none

/-- The returned output paths of a run (none when it failed). -/
def pathsOf : Except String RunResult → List String
  | Except.ok r => r.reviewed_file_paths
  | Except.error _ => []

/-- The write log of a run (no write happened when it failed). -/
def writtenOf : Except String RunResult → List SavedDoc
  | Except.ok r => r.written
  | Except.error _ => []

/-- The reviewed body saved for one file: its base content, plus the
comments block exactly when the analysis found issues. -/
def reviewedContent (f : InputFile) : List String :=
  if (simulate_llm_analysis f.name).issues.isEmpty then baseDoc f
  else baseDoc f ++ commentSection (simulate_llm_analysis f.name).issues

/-- The one `doc.save` write a file contributes to the log. -/
def savedEntry (f : InputFile) : SavedDoc :=
  { path := reviewedPath f.name, content := reviewedContent f }

/-- The content the filesystem holds at a path after a list of writes:
the last write to that path wins. -/
def lastWrite (writes : List SavedDoc) (p : String) : Option (List String) :=
  writes.foldl (fun acc w => if w.path = p then some w.content else acc) none

/-! ### Run-shape lemmas -/

/-- One loop iteration, written with the per-file derived values. -/
lemma processFile_eq (s : LoopState) (f : InputFile) :
    processFile s f =
      { checklist := updateChecklist s.checklist f.name,
        all_issues := s.all_issues ++ taggedIssues f.name,
        reviewed_file_paths := s.reviewed_file_paths ++ [reviewedPath f.name],
        written := s.written ++ [savedEntry f] } := by
  unfold processFile savedEntry reviewedContent taggedIssues
  cases h : (simulate_llm_analysis f.name).issues <;> simp [h]

/-- The whole loop, componentwise: the checklist folds over the file names,
and the issues, paths and writes are the order-preserving concatenations of
each file's contribution. -/
lemma foldl_processFile (files : List InputFile) (s : LoopState) :
    files.foldl processFile s =
      { checklist := (files.map InputFile.name).foldl updateChecklist s.checklist,
        all_issues := s.all_issues ++ ((files.map InputFile.name).map taggedIssues).flatten,
        reviewed_file_paths :=
          s.reviewed_file_paths ++ (files.map InputFile.name).map reviewedPath,
        written := s.written ++ files.map savedEntry } := by
  induction files generalizing s with
  | nil => simp
  | cons a t ih =>
    rw [List.foldl_cons, processFile_eq, ih]
    simp [List.append_assoc]

/-- Folding the checklist over a name list just disjoins, entrywise, the
match test over all the names. -/
lemma foldl_updateChecklist (names : List String) (cl : List (String × Bool)) :
    names.foldl updateChecklist cl =
      cl.map (fun p =>
        (p.1, p.2 || names.any (fun n => strIn (simplified_key p.1) (pyLower n.toList)))) := by
  induction names generalizing cl with
  | nil => simp
  | cons n t ih =>
    rw [List.foldl_cons, ih]
    simp [updateChecklist, List.map_map, Function.comp, Bool.or_assoc]

/-- `List.any` only depends on the multiset of elements. -/
lemma any_perm {l l' : List String} (h : List.Perm l l') (f : String → Bool) :
    l.any f = l'.any f := by
  rw [Bool.eq_iff_iff]
  simp only [List.any_eq_true]
  exact ⟨fun ⟨x, hx, hf⟩ => ⟨x, h.mem_iff.mp hx, hf⟩,
         fun ⟨x, hx, hf⟩ => ⟨x, h.mem_iff.mpr hx, hf⟩⟩

/-- Filtering the unsatisfied entries of a freshly recomputed checklist and
projecting the labels is filtering the labels. -/
lemma filter_map_fst (l : List (String × Bool)) (b : String → Bool) :
    (((l.map (fun p => (p.1, b p.1))).filter (fun p => !p.2)).map Prod.fst) =
      (l.map Prod.fst).filter (fun k => !b k) := by
  induction l with
  | nil => rfl
  | cons p t ih =>
    cases hb : b p.1 <;> simp [List.filter_cons, hb, ih]

/-- The `missing_docs` list computed at the end of a batch, as a function of
the uploaded file names. -/
def missingDocs (names : List String) : List String :=
  ((names.foldl updateChecklist incorporation_checklist).filter (fun p => !p.2)).map Prod.fst

/-- The checklist summary string, as a function of the upload count and the
missing-category list. -/
def runSummary (n : Nat) (missing : List String) : String :=
  let base :=
    "It appears you're trying to incorporate a company in ADGM. You have uploaded " ++
      toString n ++ " out of " ++ toString incorporation_checklist.length ++
      " required documents."
  match missing with
  | [] => base ++ "\n\nAll required documents for incorporation appear to be present."
  | d :: _ => base ++ "\n\nThe missing document appears to be: '" ++ d ++ "'."

/-- A non-empty batch always succeeds, and its whole result is determined by
the file list componentwise. -/
lemma analyze_documents_ok (files : List InputFile) (h : files ≠ []) :
    analyze_documents files = Except.ok
      { checklist_summary := runSummary files.length (missingDocs (files.map InputFile.name)),
        report :=
          { process := "Company Incorporation",
            documents_uploaded := files.length,
            required_documents := incorporation_checklist.length,
            missing_document :=
              match missingDocs (files.map InputFile.name) with
              | [] => "None"
              | d :: _ => d,
            issues_found := ((files.map InputFile.name).map taggedIssues).flatten },
        reviewed_file_paths := (files.map InputFile.name).map reviewedPath,
        written := files.map savedEntry } := by
  cases files with
  | nil => exact absurd rfl h
  | cons a t =>
    simp only [analyze_documents, List.isEmpty_cons, Bool.false_eq_true, if_false]
    rw [foldl_processFile]
    rfl

/-- The final checklist of a run, entrywise. -/
lemma run_checklist (files : List InputFile) :
    (files.foldl processFile initState).checklist =
      incorporation_checklist.map (fun p =>
        (p.1, p.2 || (files.map InputFile.name).any
          (fun n => strIn (simplified_key p.1) (pyLower n.toList)))) := by
  rw [foldl_processFile, foldl_updateChecklist]
  rfl

/-- The first-missing list is the label list filtered by the match test. -/
lemma missingDocs_eq (names : List String) :
    missingDocs names =
      (incorporation_checklist.map Prod.fst).filter
        (fun k => !names.any (fun n => strIn (simplified_key k) (pyLower n.toList))) := by
  unfold missingDocs
  rw [foldl_updateChecklist]
  have hfalse : ∀ p ∈ incorporation_checklist, p.2 = false := by decide
  have hmap :
      incorporation_checklist.map (fun p =>
        (p.1, p.2 || names.any (fun n => strIn (simplified_key p.1) (pyLower n.toList)))) =
      incorporation_checklist.map (fun p =>
        (p.1, names.any (fun n => strIn (simplified_key p.1) (pyLower n.toList)))) := by
    refine List.map_congr_left fun p hp => ?_
    rw [hfalse p hp, Bool.false_or]
  rw [hmap]
  exact filter_map_fst incorporation_checklist
    (fun k => names.any (fun n => strIn (simplified_key k) (pyLower n.toList)))

/-- Runs over file lists with the same names differ at most in the saved
document bodies: summary, report and output paths coincide. -/
lemma analyze_names_only (files files' : List InputFile)
    (hnames : files.map InputFile.name = files'.map InputFile.name) :
    reportOf (analyze_documents files) = reportOf (analyze_documents files') ∧
    summaryOf (analyze_documents files) = summaryOf (analyze_documents files') ∧
    pathsOf (analyze_documents files) = pathsOf (analyze_documents files') := by
  have hlen : files.length = files'.length := by
    simpa using congrArg List.length hnames
  cases files with
  | nil =>
    cases files' with
    | nil => exact ⟨rfl, rfl, rfl⟩
    | cons b t' => simp at hlen
  | cons a t =>
    cases files' with
    | nil => simp at hlen
    | cons b t' =>
      rw [analyze_documents_ok _ (List.cons_ne_nil a t),
        analyze_documents_ok _ (List.cons_ne_nil b t'), hnames, hlen]
      exact ⟨rfl, rfl, rfl⟩

/-! ### Claim theorems -/

/-- C5: invoking the batch operation with an empty (zero-element) file list
raises the no-input error ("Please upload at least one document."), aborts
before any processing, and produces no output artifacts: no report, no
summary, no output paths and no writes. -/
theorem C5_no_input_error :
    analyze_documents [] = Except.error "Please upload at least one document." ∧
    reportOf (analyze_documents []) = none ∧
    summaryOf (analyze_documents []) = none ∧
    pathsOf (analyze_documents []) = [] ∧
    writtenOf (analyze_documents []) = [] :=
  ⟨rfl, rfl, rfl, rfl, rfl⟩

/-- C1: for every file name, the classifier follows the fixed priority order
with case-insensitive substring tests, first match wins: "articles"/"aoa"
give Articles of Association with exactly the one High-severity jurisdiction
issue; else "board" and "resolution" give Board Resolution with exactly one
Medium-severity issue; else "memo"/"moa" give Memorandum of Association with
no issues; else "ubo" gives UBO Declaration Form with no issues; else
"register" gives Register of Members and Directors with no issues; otherwise
General Document with exactly one Low-severity issue. -/
theorem C1_classifier_priority (doc_name : String) :
    ((pyIn "articles" (pyLower doc_name.toList) || pyIn "aoa" (pyLower doc_name.toList)) = true →
      (simulate_llm_analysis doc_name).doc_type = "Articles of Association" ∧
      (simulate_llm_analysis doc_name).issues =
        [{ «section» := "Jurisdiction Clause (Simulated)",
           issue := "Jurisdiction clause does not explicitly specify 'ADGM Courts'.",
           severity := "High",
           suggestion := "Update the jurisdiction clause to 'ADGM Courts' to comply with ADGM regulations." }]) ∧
    ((pyIn "articles" (pyLower doc_name.toList) || pyIn "aoa" (pyLower doc_name.toList)) = false →
      (pyIn "board" (pyLower doc_name.toList) && pyIn "resolution" (pyLower doc_name.toList)) = true →
      (simulate_llm_analysis doc_name).doc_type = "Board Resolution" ∧
      (simulate_llm_analysis doc_name).issues =
        [{ «section» := "Signatory Section (Simulated)",
           issue := "Missing date on the signatory page.",
           severity := "Medium",
           suggestion := "Ensure all signatory fields, including the date, are properly filled out." }]) ∧
    ((pyIn "articles" (pyLower doc_name.toList) || pyIn "aoa" (pyLower doc_name.toList)) = false →
      (pyIn "board" (pyLower doc_name.toList) && pyIn "resolution" (pyLower doc_name.toList)) = false →
      (pyIn "memo" (pyLower doc_name.toList) || pyIn "moa" (pyLower doc_name.toList)) = true →
      (simulate_llm_analysis doc_name).doc_type = "Memorandum of Association" ∧
      (simulate_llm_analysis doc_name).issues = []) ∧
    ((pyIn "articles" (pyLower doc_name.toList) || pyIn "aoa" (pyLower doc_name.toList)) = false →
      (pyIn "board" (pyLower doc_name.toList) && pyIn "resolution" (pyLower doc_name.toList)) = false →
      (pyIn "memo" (pyLower doc_name.toList) || pyIn "moa" (pyLower doc_name.toList)) = false →
      pyIn "ubo" (pyLower doc_name.toList) = true →
      (simulate_llm_analysis doc_name).doc_type = "UBO Declaration Form" ∧
      (simulate_llm_analysis doc_name).issues = []) ∧
    ((pyIn "articles" (pyLower doc_name.toList) || pyIn "aoa" (pyLower doc_name.toList)) = false →
      (pyIn "board" (pyLower doc_name.toList) && pyIn "resolution" (pyLower doc_name.toList)) = false →
      (pyIn "memo" (pyLower doc_name.toList) || pyIn "moa" (pyLower doc_name.toList)) = false →
      pyIn "ubo" (pyLower doc_name.toList) = false →
      pyIn "register" (pyLower doc_name.toList) = true →
      (simulate_llm_analysis doc_name).doc_type = "Register of Members and Directors" ∧
      (simulate_llm_analysis doc_name).issues = []) ∧
    ((pyIn "articles" (pyLower doc_name.toList) || pyIn "aoa" (pyLower doc_name.toList)) = false →
      (pyIn "board" (pyLower doc_name.toList) && pyIn "resolution" (pyLower doc_name.toList)) = false →
      (pyIn "memo" (pyLower doc_name.toList) || pyIn "moa" (pyLower doc_name.toList)) = false →
      pyIn "ubo" (pyLower doc_name.toList) = false →
      pyIn "register" (pyLower doc_name.toList) = false →
      (simulate_llm_analysis doc_name).doc_type = "General Document" ∧
      (simulate_llm_analysis doc_name).issues =
        [{ «section» := "General Compliance (Simulated)",
           issue := "Document format does not appear to match standard ADGM templates.",
           severity := "Low",
           suggestion := "Cross-reference with the official ADGM templates to ensure full compliance and formatting." }]) := by
  refine ⟨?_, ?_, ?_, ?_, ?_, ?_⟩
  · intro h1
    simp only [simulate_llm_analysis]
    rw [h1]
    simp
  · intro h1 h2
    simp only [simulate_llm_analysis]
    rw [h1, h2]
    simp
  · intro h1 h2 h3
    simp only [simulate_llm_analysis]
    rw [h1, h2, h3]
    simp
  · intro h1 h2 h3 h4
    simp only [simulate_llm_analysis]
    rw [h1, h2, h3, h4]
    simp
  · intro h1 h2 h3 h4 h5
    simp only [simulate_llm_analysis]
    rw [h1, h2, h3, h4, h5]
    simp
  · intro h1 h2 h3 h4 h5
    simp only [simulate_llm_analysis]
    rw [h1, h2, h3, h4, h5]
    simp

/-- C9: implicit classifier invariant: the returned issues list always has
length at most one, and the returned doc_type is one of the six final type
strings; the initialization value "Unknown" is never returned. -/
theorem C9_classifier_invariant (doc_name : String) :
    (simulate_llm_analysis doc_name).issues.length ≤ 1 ∧
    (simulate_llm_analysis doc_name).doc_type ∈
      (["Articles of Association", "Board Resolution", "Memorandum of Association",
        "UBO Declaration Form", "Register of Members and Directors",
        "General Document"] : List String) ∧
    (simulate_llm_analysis doc_name).doc_type ≠ "Unknown" := by
  simp only [simulate_llm_analysis]
  split_ifs <;> simp

/-- C3: for every batch, a category's final flag is true iff its simplified
key occurs (case-insensitively) in at least one uploaded file name; the
final checklist is invariant under permutation of the file processing order;
updating is monotone (a satisfied category is never un-marked); and a single
file name may satisfy several categories at once. -/
theorem C3_checklist_reconciliation (files : List InputFile) :
    (∀ k b, (k, b) ∈ (files.foldl processFile initState).checklist →
      (b = true ↔ ∃ f ∈ files, strIn (simplified_key k) (pyLower f.name.toList) = true)) ∧
    (∀ files' : List InputFile, List.Perm files files' →
      (files.foldl processFile initState).checklist =
        (files'.foldl processFile initState).checklist) ∧
    (∀ (s : List (String × Bool)) (n : String) (i : Nat) (h1 : i < s.length)
      (h2 : i < (updateChecklist s n).length),
      (s.get ⟨i, h1⟩).2 = true → ((updateChecklist s n).get ⟨i, h2⟩).2 = true) ∧
    2 ≤ ((([{ name := "articles of association memorandum of association.docx",
              parsed := none }] : List InputFile).foldl processFile
          initState).checklist.filter (fun p => p.2)).length := by
  refine ⟨?_, ?_, ?_, by decide⟩
  · intro k b hmem
    rw [run_checklist] at hmem
    obtain ⟨p, hp, heq⟩ := List.mem_map.mp hmem
    rw [Prod.ext_iff] at heq
    obtain ⟨hk, hb⟩ := heq
    have hp2 : p.2 = false := by
      have hall : ∀ q ∈ incorporation_checklist, q.2 = false := by decide
      exact hall p hp
    rw [hp2, Bool.false_or] at hb
    subst hk
    subst hb
    rw [List.any_eq_true]
    constructor
    · rintro ⟨n, hn, hf⟩
      obtain ⟨g, hg, hgn⟩ := List.mem_map.mp hn
      exact ⟨g, hg, by rw [hgn]; exact hf⟩
    · rintro ⟨g, hg, hf⟩
      exact ⟨g.name, List.mem_map.mpr ⟨g, hg, rfl⟩, hf⟩
  · intro files' hperm
    rw [run_checklist, run_checklist]
    refine List.map_congr_left fun p _ => ?_
    rw [any_perm (hperm.map InputFile.name)]
  · intro s n i h1 h2 hv
    have hg : (updateChecklist s n).get ⟨i, h2⟩ =
        ((s.get ⟨i, h1⟩).1,
          (s.get ⟨i, h1⟩).2 ||
            strIn (simplified_key (s.get ⟨i, h1⟩).1) (pyLower n.toList)) := by
      simp [updateChecklist]
    rw [hg, hv]
    simp

/-- C4: for every non-empty batch, the report's process is the fixed string,
documents_uploaded is the upload count, required_documents is 7,
missing_document is the first category label in the fixed declared order
whose match test fails over all uploaded names (or "None" when all seven
match), and issues_found is the flattened order-preserving concatenation of
every file's issues, each tagged with its originating file name. -/
theorem C4_report_assembly (files : List InputFile) (h : files ≠ []) :
    reportOf (analyze_documents files) = some
      { process := "Company Incorporation",
        documents_uploaded := files.length,
        required_documents := 7,
        missing_document :=
          match (incorporation_checklist.map Prod.fst).filter
              (fun k => !(files.map InputFile.name).any
                (fun n => strIn (simplified_key k) (pyLower n.toList))) with
          | [] => "None"
          | d :: _ => d,
        issues_found := ((files.map InputFile.name).map taggedIssues).flatten } := by
  rw [analyze_documents_ok files h, missingDocs_eq]
  rfl

/-- Witness for C4 at the concrete one-file batch ["AoA_Acme.docx"]. -/
theorem C4_report_assembly_witness :
    reportOf (analyze_documents [{ name := "AoA_Acme.docx", parsed := none }]) = some
      { process := "Company Incorporation",
        documents_uploaded := 1,
        required_documents := 7,
        missing_document := "Articles of Association (AoA)",
        issues_found :=
          [{ «section» := "Jurisdiction Clause (Simulated)",
             document := "AoA_Acme.docx",
             issue := "Jurisdiction clause does not explicitly specify 'ADGM Courts'.",
             severity := "High",
             suggestion := "Update the jurisdiction clause to 'ADGM Courts' to comply with ADGM regulations." }] } := by
  rw [C4_report_assembly [{ name := "AoA_Acme.docx", parsed := none }]
    (List.cons_ne_nil _ _)]
  decide

/-- C6: a per-file parse failure is recovered locally: a non-empty batch
always completes, the structured report, the summary and the output paths
are exactly those of a run in which only the file names are used (the parse
outcomes are invisible to them), and the failure shows up only as the
placeholder text at the head of that file's reviewed output body. -/
theorem C6_parse_failure_isolated (files files' : List InputFile)
    (hnames : files.map InputFile.name = files'.map InputFile.name) :
    (files ≠ [] → ∃ r, analyze_documents files = Except.ok r) ∧
    reportOf (analyze_documents files) = reportOf (analyze_documents files') ∧
    summaryOf (analyze_documents files) = summaryOf (analyze_documents files') ∧
    pathsOf (analyze_documents files) = pathsOf (analyze_documents files') ∧
    (∀ f ∈ files, f.parsed = none →
      ∃ tail, reviewedContent f = placeholderDoc f.name ++ tail) := by
  obtain ⟨hrep, hsum, hpath⟩ := analyze_names_only files files' hnames
  refine ⟨fun h => ⟨_, analyze_documents_ok files h⟩, hrep, hsum, hpath, ?_⟩
  intro f _ hparse
  unfold reviewedContent baseDoc
  rw [hparse]
  by_cases hissues : (simulate_llm_analysis f.name).issues.isEmpty
  · exact ⟨[], by rw [if_pos hissues, List.append_nil]⟩
  · exact ⟨commentSection (simulate_llm_analysis f.name).issues, by rw [if_neg hissues]⟩

/-- Witness for C6: a one-file batch whose body parses and the same-named
batch whose body does not produce the same structured report. -/
theorem C6_parse_failure_isolated_witness :
    reportOf (analyze_documents [{ name := "AoA_Acme.docx", parsed := some ["body"] }]) =
      reportOf (analyze_documents [{ name := "AoA_Acme.docx", parsed := none }]) :=
  (C6_parse_failure_isolated
    [{ name := "AoA_Acme.docx", parsed := some ["body"] }]
    [{ name := "AoA_Acme.docx", parsed := none }] rfl).2.1

/-- C7: round-trip of document content: the write log of a run is exactly
one saved document per input file, saved at the reviewed path; its body is
the input's paragraphs when parsing succeeded (otherwise exactly the
two-line placeholder), followed — exactly when the analysis found issues —
by the marked "AI Analysis & Comments" heading and, per issue in order, the
quoted-style comment line, the suggestion line and a blank separator. -/
theorem C7_roundtrip (files : List InputFile) (f : InputFile) :
    writtenOf (analyze_documents files) = files.map savedEntry ∧
    (savedEntry f).path = reviewedPath f.name ∧
    (savedEntry f).content =
      (match f.parsed with
       | some paragraphs => paragraphs
       | none =>
         ["Original content of " ++ f.name ++ " would be here.",
          "(Could not fully parse original, but analysis is proceeding based on filename)"]) ++
      (match (simulate_llm_analysis f.name).issues with
       | [] => []
       | issues =>
         "--- AI Analysis & Comments ---" ::
           (issues.map (fun i =>
             ["COMMENT: In section '" ++ i.«section» ++ "', an issue was found: '" ++
                i.issue ++ "' (Severity: " ++ i.severity ++ ").",
              "SUGGESTION: " ++ i.suggestion, ""])).flatten) := by
  refine ⟨?_, rfl, ?_⟩
  · cases files with
    | nil => rfl
    | cons a t =>
      rw [analyze_documents_ok _ (List.cons_ne_nil a t)]
      rfl
  · show reviewedContent f = _
    simp only [reviewedContent, baseDoc, placeholderDoc]
    cases hp : f.parsed <;>
      cases hi : (simulate_llm_analysis f.name).issues <;>
        simp [hi, commentSection, commentLines] <;> rfl

/-- C8: every uploaded file of a non-empty batch produces exactly one saved
reviewed document, the returned path sequence has one entry per input in
processing order, each path is the output directory joined with the fixed
"reviewed_" marker prefixed to the file's name, and every write of the run
targets such a path (the inputs themselves are never written). -/
theorem C8_one_output_per_file (files : List InputFile) (h : files ≠ []) :
    ∃ r, analyze_documents files = Except.ok r ∧
      r.reviewed_file_paths = files.map (fun f => output_dir ++ "/reviewed_" ++ f.name) ∧
      r.written = files.map savedEntry ∧
      r.written.length = files.length ∧
      (∀ w ∈ r.written, ∃ f ∈ files, w.path = output_dir ++ "/reviewed_" ++ f.name) := by
  refine ⟨_, analyze_documents_ok files h, ?_, rfl, by simp, ?_⟩
  · show (files.map InputFile.name).map reviewedPath = _
    rw [List.map_map]
    rfl
  · intro w hw
    obtain ⟨f, hf, hfw⟩ := List.mem_map.mp hw
    exact ⟨f, hf, by rw [← hfw]; rfl⟩

/-- Witness for C8 at a concrete one-file batch. -/
theorem C8_one_output_per_file_witness :
    pathsOf (analyze_documents [{ name := "a.docx", parsed := none }]) =
      ["reviewed_docs/reviewed_a.docx"] := by
  obtain ⟨r, hr, hpaths, -, -, -⟩ :=
    C8_one_output_per_file [{ name := "a.docx", parsed := none }] (List.cons_ne_nil _ _)
  rw [hr]
  show r.reviewed_file_paths = _
  rw [hpaths]
  rfl

/-- C10: the reviewed output path is a function of the base name alone, so
two uploaded files with the same base name share one output path: the path
list returned for such a two-file batch repeats the path, and the write log
leaves the second file's reviewed body at that path (the later save
overwrites the earlier one). -/
theorem C10_output_path_collision (f g : InputFile) (h : f.name = g.name) :
    reviewedPath f.name = reviewedPath g.name ∧
    pathsOf (analyze_documents [f, g]) = [reviewedPath f.name, reviewedPath f.name] ∧
    lastWrite (writtenOf (analyze_documents [f, g])) (reviewedPath f.name) =
      some (reviewedContent g) := by
  refine ⟨by rw [h], ?_, ?_⟩
  · rw [analyze_documents_ok [f, g] (List.cons_ne_nil f [g])]
    show [reviewedPath f.name, reviewedPath g.name] = _
    rw [h]
  · rw [analyze_documents_ok [f, g] (List.cons_ne_nil f [g])]
    show lastWrite [savedEntry f, savedEntry g] (reviewedPath f.name) = _
    simp [lastWrite, savedEntry, h]

/-- Witness for C10: two uploads named "dup.docx", one parsed and one not;
the final content at the shared path is the second file's reviewed body. -/
theorem C10_output_path_collision_witness :
    lastWrite
      (writtenOf (analyze_documents
        [{ name := "dup.docx", parsed := some ["first version"] },
         { name := "dup.docx", parsed := none }]))
      (reviewedPath "dup.docx") =
      some (reviewedContent { name := "dup.docx", parsed := none }) :=
  (C10_output_path_collision
    { name := "dup.docx", parsed := some ["first version"] }
    { name := "dup.docx", parsed := none } rfl).2.2

/-- The two-file scenario batch of the spec, with some concrete parsed body
for the first file and an unparsable second file. -/
def scenarioFiles : List InputFile :=
  [{ name := "AoA_Acme.docx", parsed := some ["AoA body"] },
   { name := "Board_Resolution_Acme.docx", parsed := some ["Resolution body"] }]

/-- C2 counterexample: on the batch ["AoA_Acme.docx",
"Board_Resolution_Acme.docx"] the report's missing_document is
"Articles of Association (AoA)" — the simplified key "articles of
association" occurs in no uploaded name, so the first checklist category is
already unsatisfied — and not "Memorandum of Association (MoA/MoU)" as the
claim states. -/
theorem C2_scenario_counterexample :
    (reportOf (analyze_documents scenarioFiles)).map Report.missing_document =
      some "Articles of Association (AoA)" ∧
    some "Articles of Association (AoA)" ≠
      some "Memorandum of Association (MoA/MoU)" := by
  constructor
  · decide
  · decide

/-- C2 (amended): on the batch ["AoA_Acme.docx", "Board_Resolution_Acme.docx"]
the checklist summary reports "2 out of 7", missing_document is
"Articles of Association (AoA)" (the first unsatisfied category), there are
exactly two issues found, one High and one Medium, and two reviewed files
are produced, each containing the appended comments section. -/
theorem C2_scenario_amended :
    (summaryOf (analyze_documents scenarioFiles)).map
        (fun s => strIn "2 out of 7".toList s.toList) = some true ∧
    (reportOf (analyze_documents scenarioFiles)).map Report.missing_document =
      some "Articles of Association (AoA)" ∧
    (reportOf (analyze_documents scenarioFiles)).map
        (fun r => r.issues_found.map TaggedIssue.severity) = some ["High", "Medium"] ∧
    (writtenOf (analyze_documents scenarioFiles)).length = 2 ∧
    ∀ w ∈ writtenOf (analyze_documents scenarioFiles),
      "--- AI Analysis & Comments ---" ∈ w.content := by
  refine ⟨by decide, by decide, by decide, by decide, by decide⟩
